import Mathlib

/-!
Verification development for the VaniAI civic-helpline session engine.

The definitions below are a shallow embedding of the session engine found
in `src/App.tsx` (together with the record types of `src/types.ts`):

* `ComplaintData` / `TranscriptionItem` embed the record interfaces.
* `buildComplaint`, `processCall`, `processBatch` embed the tool-call
  dispatcher (the `message.toolCall` branch of `onmessage`).
* `complaintsUpdater` embeds the `setDbComplaints` state updater together
  with its `localStorage.setItem` call, with an explicit success flag for
  the storage operation.
* `addFragment` / `assemble` embed the transcription branches of
  `onmessage`.
* `schedule`, `sourceEnded`, `interruptPlayback`, `safeStop` embed the
  audio scheduling branch and the `serverContent.interrupted` branch.
* `stopCall` embeds the `stopCall` teardown routine, with an explicit
  failure profile describing which of the guarded release steps throw.

Machine reals (audio clock times and buffer durations) are modelled as
rationals; JavaScript string-or-undefined argument values are modelled as
`Option String`, and the JS `x || d` defaulting idiom (which also replaces
the empty string) as `jsOrString`.
-/

/-- Status field of a complaint record, from the union type
`'Registered' | 'Assigned' | 'Resolved'` in `src/types.ts`. -/
inductive Status where
  | Registered
  | Assigned
  | Resolved
deriving Repr, DecidableEq

/-- The `ComplaintData` interface of `src/types.ts`. Optional fields are
stored already defaulted, as the dispatcher produces them. -/
structure ComplaintData where
  id : String
  callReference : String
  timestamp : String
  complaintType : String
  description : String
  wardNumber : String
  zone : String
  language : String
  status : Status
deriving Repr, DecidableEq

/-- Speaker tag of a transcript entry (`sender: 'user' | 'ai'`). -/
inductive Sender where
  | user
  | ai
deriving Repr, DecidableEq

/-- The `TranscriptionItem` interface of `src/types.ts`. -/
structure TranscriptionItem where
  id : String
  sender : Sender
  text : String
  timestamp : String
deriving Repr, DecidableEq

/-- The JS `v || d` defaulting idiom applied to a possibly-missing string
argument: `undefined` and the empty string are both falsy, hence replaced
by the default. -/
def jsOrString (v : Option String) (d : String) : String :=
  match v with
  | none => d
  | some s => if s = "" then d else s

/-- Argument bag of a `register_complaint` tool call: each declared field
may be present or absent (`fc.args` is loosely typed). -/
structure RegisterArgs where
  complaintType : Option String
  description : Option String
  language : Option String
  wardNumber : Option String
  zone : Option String
deriving Repr, DecidableEq

/-- An argument bag with every field missing. -/
def emptyArgs : RegisterArgs :=
  { complaintType := none, description := none, language := none,
    wardNumber := none, zone := none }

/-- One function invocation from a tool-call batch: caller-supplied
correlation id, function name, argument bag. -/
structure FunctionCall where
  id : String
  name : String
  args : RegisterArgs
deriving Repr, DecidableEq

/-- A function-result event sent back on the stream via
`session.sendToolResponse`. -/
structure ToolResponse where
  id : String
  name : String
  result : String
deriving Repr, DecidableEq

/-- The numeric part of a generated reference id:
`Math.floor(100000 + Math.random() * 900000)` where `Math.random()` lies in
`[0,1)`; `rand` stands for `Math.floor(Math.random() * 900000)`, reduced
mod 900000 so the embedding is total. -/
def callIdNum (rand : Nat) : Nat :=
  100000 + rand % 900000

/-- The generated reference id `VMC-${...}` (decimal printing of the
random number, as JS template-string conversion does). -/
def mkCallId (rand : Nat) : String :=
  "VMC-" ++ Nat.repr (callIdNum rand)

/-- The record literal built in the `register_complaint` branch
(`newComplaint` in `src/App.tsx`). -/
def buildComplaint (args : RegisterArgs) (rand : Nat) (ts : String) : ComplaintData :=
  let callId := mkCallId rand
  { id := callId
    callReference := callId
    timestamp := ts
    complaintType := jsOrString args.complaintType "Uncategorized"
    description := jsOrString args.description ""
    wardNumber := jsOrString args.wardNumber "N/A"
    zone := jsOrString args.zone "N/A"
    language := jsOrString args.language "Detected"
    status := Status.Registered }

/-- `addLog`: prepend the message and keep at most the previous 21 lines
(`[msg, ...prev.slice(0, 20)]`). -/
def addLog (msg : String) (logs : List String) : List String :=
  msg :: logs.take 20

/-- The durable save (`localStorage.setItem`), which can throw (quota,
disabled storage); `saveOk` says whether this particular call succeeds. -/
def saveDb (l : List ComplaintData) (saveOk : Bool) : Except Unit (List ComplaintData) :=
  if saveOk then Except.ok l else Except.error ()

/-- The `setDbComplaints` updater of the `register_complaint` branch:
prepend the new record, save the full updated sequence, return it. The
`localStorage.setItem` call is not guarded, so a storage failure escapes
the updater. Returns (new in-memory sequence, persisted sequence). -/
def complaintsUpdater (newC : ComplaintData) (prev : List ComplaintData)
    (saveOk : Bool) : Except Unit (List ComplaintData × List ComplaintData) :=
  let updated := newC :: prev
  match saveDb updated saveOk with
  | Except.ok saved => Except.ok (updated, saved)
  | Except.error e => Except.error e

/-- Dispatcher-visible state: in-memory record sequence, last persisted
sequence, function results sent so far, log lines, armed teardown timers
(absolute times), and whether an exception escaped a state updater. -/
structure DispatchState where
  complaints : List ComplaintData
  persisted : List ComplaintData
  responses : List ToolResponse
  logs : List String
  teardownTimers : List Nat
  uncaughtError : Bool
deriving Repr, DecidableEq

/-- Initial dispatcher state (empty stores, the boot log line). -/
def initDispatch : DispatchState :=
  { complaints := [], persisted := [], responses := [],
    logs := ["VaniAI Quantum Kernel Online."], teardownTimers := [],
    uncaughtError := false }

/-- Grace delay before teardown after `disconnect_call`
(`setTimeout(stopCall, 2000)`). -/
def graceDelayMs : Nat := 2000

/-- One iteration of the `for (const fc of message.toolCall.functionCalls)`
loop. `rand` is the random draw for this call, `ts` the wall-clock
timestamp string, `now` the current time in ms, `saveOk` whether the
durable save would succeed. The `register_complaint` branch builds the
record, runs the state updater, logs, and sends exactly one correlated
tool response; the `disconnect_call` branch logs and arms a delayed
shutdown; any other name falls through the if/else-if with no effect. -/
def processCall (st : DispatchState) (fc : FunctionCall) (rand : Nat)
    (ts : String) (now : Nat) (saveOk : Bool) : DispatchState :=
  if fc.name = "register_complaint" then
    let newC := buildComplaint fc.args rand ts
    let upd := complaintsUpdater newC st.complaints saveOk
    let mem := match upd with
      | Except.ok p => p.1
      | Except.error _ => st.complaints
    let pers := match upd with
      | Except.ok p => p.2
      | Except.error _ => st.persisted
    let err := match upd with
      | Except.ok _ => false
      | Except.error _ => true
    { complaints := mem
      persisted := pers
      responses := st.responses ++
        [{ id := fc.id, name := fc.name,
           result := "Success. Reference ID provided to user is " ++ newC.id }]
      logs := addLog ("Integrated Record Created: " ++ newC.id) st.logs
      teardownTimers := st.teardownTimers
      uncaughtError := st.uncaughtError || err }
  else if fc.name = "disconnect_call" then
    { st with
      logs := addLog "User requested closure. Ending call." st.logs
      teardownTimers := st.teardownTimers ++ [now + graceDelayMs] }
  else
    st

/-- The whole tool-call batch, processed in order; each call carries its
own random draw. -/
def processBatch (st : DispatchState) (calls : List (FunctionCall × Nat))
    (ts : String) (now : Nat) (saveOk : Bool) : DispatchState :=
  calls.foldl (fun s p => processCall s p.1 p.2 ts now saveOk) st

/-- Number of responses correlated to a given invocation id. -/
def responsesFor (id : String) (rs : List ToolResponse) : Nat :=
  (rs.filter (fun r => r.id = id)).length

/-- An incoming transcript fragment: which stream it arrived on
(`inputTranscription` = user, `outputTranscription` = ai), the text, and
the ambient fresh values (`Date.now().toString()` and `new Date()`) used
if a new entry is created. -/
structure Fragment where
  sender : Sender
  text : String
  id : String
  timestamp : String
deriving Repr, DecidableEq

/-- One transcription branch of `onmessage`: if the last entry has the
same sender, replace it by a copy with the fragment appended to its text;
otherwise push a new entry at the end. -/
def addFragment (prev : List TranscriptionItem) (f : Fragment) :
    List TranscriptionItem :=
  match prev.getLast? with
  | some last =>
    if last.sender = f.sender then
      prev.dropLast ++ [{ last with text := last.text ++ f.text }]
    else
      prev ++ [{ id := f.id, sender := f.sender, text := f.text,
                 timestamp := f.timestamp }]
  | none =>
    prev ++ [{ id := f.id, sender := f.sender, text := f.text,
               timestamp := f.timestamp }]

/-- Fragments processed in arrival order starting from the empty
transcript. -/
def assemble (frags : List Fragment) : List TranscriptionItem :=
  frags.foldl addFragment []

/-- Reference description of the assembler: fold the tail of the fragment
stream while holding the entry of the current same-speaker run. -/
def mergeRunsGo (cur : TranscriptionItem) : List Fragment → List TranscriptionItem
  | [] => [cur]
  | f :: fs =>
    if cur.sender = f.sender then
      mergeRunsGo { cur with text := cur.text ++ f.text } fs
    else
      cur :: mergeRunsGo { id := f.id, sender := f.sender, text := f.text,
                           timestamp := f.timestamp } fs

/-- Reference description: one entry per maximal run of consecutive
same-speaker fragments, in arrival order, each entry's text the ordered
concatenation of its run. -/
def mergeRuns : List Fragment → List TranscriptionItem
  | [] => []
  | f :: fs => mergeRunsGo { id := f.id, sender := f.sender, text := f.text,
                             timestamp := f.timestamp } fs

/-- The new transcript entry created from a fragment (same record as the
`return [...prev, { id: ..., sender, text, timestamp }]` branch). -/
def fragItem (f : Fragment) : TranscriptionItem :=
  { id := f.id, sender := f.sender, text := f.text, timestamp := f.timestamp }

/-- Playback scheduler state: the `nextStartTimeRef` cursor and the
`sourcesRef` active set (source nodes named by numeric ids; the JS `Set`
holds distinct freshly-created nodes, modelled as an id list). -/
structure SchedState where
  nextStart : ℚ
  active : List Nat
deriving Repr, DecidableEq

/-- The audio branch of `onmessage` for one decoded buffer:
`nextStart = max(nextStart, ctx.currentTime)`, start the source there,
advance the cursor by the buffer duration, add the source to the active
set. Returns the new state and the start time passed to `source.start`. -/
def schedule (st : SchedState) (clock dur : ℚ) (sid : Nat) : SchedState × ℚ :=
  let s := max st.nextStart clock
  ({ nextStart := s + dur, active := st.active ++ [sid] }, s)

/-- `source.onended`: the finished source removes itself from the active
set. -/
def sourceEnded (st : SchedState) (sid : Nat) : SchedState :=
  { st with active := st.active.erase sid }

/-- The `serverContent.interrupted` branch: stop every active source,
clear the set, reset the cursor to zero. Returns the new state and the
list of sources that received a stop call. -/
def interruptPlayback (st : SchedState) : SchedState × List Nat :=
  ({ nextStart := 0, active := [] }, st.active)

/-- Lifecycle view of one `AudioBufferSourceNode`: whether `start` was
called, whether playback already finished, whether `stop` was called. -/
structure SourceNode where
  started : Bool
  finished : Bool
  stopped : Bool
deriving Repr, DecidableEq

/-- A raw `s.stop()` call: throws (`InvalidStateError`) when the node was
never started or has already finished; otherwise marks it stopped. -/
def rawStop (s : SourceNode) : Except Unit SourceNode :=
  if s.started && !s.finished then Except.ok { s with stopped := true }
  else Except.error ()

/-- The guarded stop used everywhere in the source
(`try { s.stop(); } catch (e) {}`): a throwing stop leaves the node as it
was. -/
def safeStop (s : SourceNode) : SourceNode :=
  match rawStop s with
  | Except.ok s' => s'
  | Except.error _ => s

/-- Which of the individually guarded release steps of `stopCall` throw
when attempted. (`MediaStreamTrack.stop` never throws, and indeed is the
one step the source leaves unguarded.) -/
structure FailureProfile where
  sessionCloseFails : Bool
  sourceStopFails : List Nat
  inputCtxCloseFails : Bool
  outputCtxCloseFails : Bool
deriving Repr, DecidableEq

/-- Session-level state held in the refs of `App`: the `activeCall` flag,
the session handle, the active playback sources, the playback cursor, the
microphone stream (with its track count), and the pair of audio
contexts. -/
structure AppState where
  activeCall : Bool
  session : Option Unit
  sources : List Nat
  nextStartTime : ℚ
  streamTracks : Option Nat
  audioContexts : Option Unit
  logs : List String
deriving Repr, DecidableEq

/-- `session.close()`, which may throw; guarded by try/catch in the
source. -/
def closeSession (fails : Bool) : Except Unit Unit :=
  if fails then Except.error () else Except.ok ()

/-- `ctx.close()`, which may throw; both closes share one try/catch in the
source. -/
def closeCtx (fails : Bool) : Except Unit Unit :=
  if fails then Except.error () else Except.ok ()

/-- The `stopCall` teardown routine, step for step: clear the active flag;
close and drop the session handle (guarded); stop every active source
(each guarded) and clear the set; reset the cursor; stop every stream
track and drop the stream handle; close both audio contexts (one shared
guard) and drop them; log. Total for every failure profile — every throw
is swallowed. -/
def stopCall (st : AppState) (f : FailureProfile) : AppState :=
  let st1 := { st with activeCall := false }
  let st2 := match st1.session with
    | some _ =>
      match closeSession f.sessionCloseFails with
      | Except.ok _ => { st1 with session := none }
      | Except.error _ => { st1 with session := none }
    | none => st1
  let st3 := { st2 with sources := [] }
  let st4 := { st3 with nextStartTime := 0 }
  let st5 := match st4.streamTracks with
    | some _ => { st4 with streamTracks := none }
    | none => st4
  let st6 := match st5.audioContexts with
    | some _ =>
      match closeCtx f.inputCtxCloseFails with
      | Except.ok _ =>
        match closeCtx f.outputCtxCloseFails with
        | Except.ok _ => { st5 with audioContexts := none }
        | Except.error _ => { st5 with audioContexts := none }
      | Except.error _ => { st5 with audioContexts := none }
    | none => st5
  { st6 with logs := addLog "Session safely terminated." st6.logs }

/-- Helper: the full teardown result, for any initial state and any
failure profile: all resources released, cursor reset, one log line
added. -/
lemma stopCall_eq (st : AppState) (f : FailureProfile) :
    stopCall st f =
      { activeCall := false, session := none, sources := [],
        nextStartTime := 0, streamTracks := none, audioContexts := none,
        logs := addLog "Session safely terminated." st.logs } := by
  rcases st with ⟨a, s, src, nst, tr, ctx, lg⟩
  cases s <;> cases tr <;> cases ctx <;>
    cases hf1 : f.sessionCloseFails <;>
    cases hf2 : f.inputCtxCloseFails <;>
    cases hf3 : f.outputCtxCloseFails <;>
    simp [stopCall, closeSession, closeCtx, hf1, hf2, hf3]

/-- C10: every complaint record created by `register_complaint` has its
`id` field equal to its `callReference` field — both are the same
generated VMC reference id. -/
theorem complaint_id_eq_callReference (args : RegisterArgs) (rand : Nat)
    (ts : String) :
    (buildComplaint args rand ts).id = (buildComplaint args rand ts).callReference := rfl

/-- C8: processing a `disconnect_call` invocation at time `now` performs
no teardown at `now`; it arms exactly one delayed shutdown timer at
`now + graceDelayMs` (2000 ms) and, beyond the log line, changes nothing
else: complaint sequence, persisted sequence, responses and error flag are
untouched. -/
theorem disconnect_arms_delayed_teardown (st : DispatchState) (cid : String)
    (args : RegisterArgs) (rand : Nat) (ts : String) (now : Nat) (saveOk : Bool) :
    processCall st { id := cid, name := "disconnect_call", args := args } rand ts now saveOk =
      { st with
        logs := addLog "User requested closure. Ending call." st.logs,
        teardownTimers := st.teardownTimers ++ [now + graceDelayMs] } := by
  simp [processCall]

/-- C9 counterexample: a tool call with an unknown function name
(`get_status`) leaves the dispatcher state completely unchanged — in
particular the log gains no entry, contradicting the claim that the event
is "logged only". -/
theorem unknown_call_not_logged_counterexample :
    processCall initDispatch
        { id := "fc-9", name := "get_status", args := emptyArgs } 0 "ts" 0 true =
      initDispatch ∧
    (processCall initDispatch
        { id := "fc-9", name := "get_status", args := emptyArgs } 0 "ts" 0 true).logs =
      initDispatch.logs := by
  constructor <;> rfl

/-- C9 (amended): an invocation whose name is neither
`register_complaint` nor `disconnect_call` is ignored entirely: no error,
no state change, and no log entry either. -/
theorem unknown_call_ignored_entirely (st : DispatchState) (fc : FunctionCall)
    (rand : Nat) (ts : String) (now : Nat) (saveOk : Bool)
    (h1 : fc.name ≠ "register_complaint") (h2 : fc.name ≠ "disconnect_call") :
    processCall st fc rand ts now saveOk = st := by
  simp [processCall, h1, h2]

/-- Witness for the amended C9 theorem at a concrete unknown call. -/
theorem unknown_call_ignored_entirely_witness :
    processCall initDispatch
        { id := "fc-9b", name := "lookup", args := emptyArgs } 1 "t" 5 true =
      initDispatch :=
  unknown_call_ignored_entirely initDispatch
    { id := "fc-9b", name := "lookup", args := emptyArgs } 1 "t" 5 true
    (by decide) (by decide)

/-- Helper: how the response list grows across one call of the
dispatcher loop. -/
lemma processCall_responses_length (st : DispatchState) (fc : FunctionCall)
    (rand : Nat) (ts : String) (now : Nat) (saveOk : Bool) :
    (processCall st fc rand ts now saveOk).responses.length =
      st.responses.length +
        (if fc.name = "register_complaint" then 1 else 0) := by
  by_cases h1 : fc.name = "register_complaint" <;>
    by_cases h2 : fc.name = "disconnect_call" <;>
    simp [processCall, h1, h2]

/-- Helper: response count over a whole batch. -/
lemma processBatch_responses_length (calls : List (FunctionCall × Nat)) :
    ∀ (st : DispatchState) (ts : String) (now : Nat) (saveOk : Bool),
      (processBatch st calls ts now saveOk).responses.length =
        st.responses.length +
          (calls.filter (fun p => p.1.name = "register_complaint")).length := by
  induction calls with
  | nil => intro st ts now saveOk; simp [processBatch]
  | cons c cs ih =>
    intro st ts now saveOk
    have hstep := processCall_responses_length st c.1 c.2 ts now saveOk
    have htail := ih (processCall st c.1 c.2 ts now saveOk) ts now saveOk
    have hfold : processBatch st (c :: cs) ts now saveOk =
        processBatch (processCall st c.1 c.2 ts now saveOk) cs ts now saveOk := rfl
    rw [hfold, htail, hstep]
    by_cases h : c.1.name = "register_complaint"
    · simp [List.filter_cons, h]
      omega
    · simp [List.filter_cons, h]

/-- C5 counterexample: a batch consisting of one `disconnect_call`
invocation with correlation id `fc-5` produces zero function-results for
that id, contradicting the claim that every invocation (disconnect_call
included) receives exactly one. -/
theorem disconnect_receives_no_response_counterexample :
    responsesFor "fc-5"
      (processBatch initDispatch
        [({ id := "fc-5", name := "disconnect_call", args := emptyArgs }, 0)]
        "ts" 100 true).responses = 0 := by
  rfl

/-- C5 (amended): each `register_complaint` invocation receives exactly
one function-result, correlated by its caller-supplied id; every other
invocation (disconnect_call or unknown) receives none; over any batch the
number of emitted results equals the number of `register_complaint`
invocations in it. -/
theorem one_response_per_register_call (st : DispatchState) (fc : FunctionCall)
    (rand : Nat) (ts : String) (now : Nat) (saveOk : Bool) :
    (fc.name = "register_complaint" →
      ∃ r : ToolResponse, r.id = fc.id ∧
        (processCall st fc rand ts now saveOk).responses = st.responses ++ [r]) ∧
    (fc.name ≠ "register_complaint" →
      (processCall st fc rand ts now saveOk).responses = st.responses) ∧
    (∀ calls : List (FunctionCall × Nat),
      (processBatch st calls ts now saveOk).responses.length =
        st.responses.length +
          (calls.filter (fun p => p.1.name = "register_complaint")).length) := by
  refine ⟨fun h => ?_, fun h => ?_, fun calls => processBatch_responses_length calls st ts now saveOk⟩
  · refine ⟨⟨fc.id, fc.name,
      "Success. Reference ID provided to user is " ++ (buildComplaint fc.args rand ts).id⟩,
      rfl, ?_⟩
    simp [processCall, h]
  · by_cases h2 : fc.name = "disconnect_call" <;> simp [processCall, h, h2]

/-- Witness for the amended C5 theorem: a concrete register call emits
exactly one result correlated by its id. -/
theorem one_response_per_register_call_witness :
    ∃ r : ToolResponse, r.id = "fc-5w" ∧
      (processCall initDispatch
        { id := "fc-5w", name := "register_complaint", args := emptyArgs }
        7 "t" 0 true).responses = initDispatch.responses ++ [r] :=
  (one_response_per_register_call initDispatch
    { id := "fc-5w", name := "register_complaint", args := emptyArgs }
    7 "t" 0 true).1 rfl

/-- C7 counterexample: when the durable save fails, the `setDbComplaints`
updater throws instead of completing — the in-memory sequence stays
unchanged (empty here, the new record was not added), nothing is logged
about any failure, and the exception escapes uncaught. This contradicts
the claim that the failure is logged and the in-memory sequence still
updated. -/
theorem save_failure_counterexample :
    complaintsUpdater (buildComplaint emptyArgs 3 "t") [] false = Except.error () ∧
    (processCall initDispatch
        { id := "fc-7c", name := "register_complaint", args := emptyArgs }
        3 "t" 0 false).complaints = [] ∧
    (processCall initDispatch
        { id := "fc-7c", name := "register_complaint", args := emptyArgs }
        3 "t" 0 false).uncaughtError = true := by
  refine ⟨rfl, ?_, ?_⟩ <;> rfl

/-- C7 (amended): the durable save is not guarded — when it fails, the
failure escapes the state updater as an uncaught exception and the
in-memory record sequence is left unchanged (and the failure is not
logged as such); only when the save succeeds is the record prepended to
the in-memory sequence and persisted. -/
theorem save_failure_prevents_memory_update (newC : ComplaintData)
    (prev : List ComplaintData) :
    complaintsUpdater newC prev false = Except.error () ∧
    complaintsUpdater newC prev true = Except.ok (newC :: prev, newC :: prev) ∧
    ∀ (st : DispatchState) (fc : FunctionCall) (rand : Nat) (ts : String) (now : Nat),
      fc.name = "register_complaint" →
        (processCall st fc rand ts now false).complaints = st.complaints ∧
        (processCall st fc rand ts now false).persisted = st.persisted ∧
        (processCall st fc rand ts now false).uncaughtError = true ∧
        (processCall st fc rand ts now true).complaints =
          buildComplaint fc.args rand ts :: st.complaints := by
  refine ⟨rfl, rfl, fun st fc rand ts now h => ?_⟩
  refine ⟨?_, ?_, ?_, ?_⟩ <;>
    simp [processCall, h, complaintsUpdater, saveDb]

/-- Witness for the amended C7 theorem at a concrete call. -/
theorem save_failure_prevents_memory_update_witness :
    (processCall initDispatch
        { id := "fc-7w", name := "register_complaint", args := emptyArgs }
        11 "t" 0 false).complaints = initDispatch.complaints :=
  ((save_failure_prevents_memory_update (buildComplaint emptyArgs 11 "t") []).2.2
    initDispatch { id := "fc-7w", name := "register_complaint", args := emptyArgs }
    11 "t" 0 rfl).1

/-- C6: the teardown routine is total and idempotent: from any state
(including one where no session was ever started) and under any
combination of failures of the guarded release steps, `stopCall`
completes, and afterwards the call flag is down, the stream handle is
null, the active buffer set is empty, the playback cursor is zero, and the
microphone and audio-context handles are released; a second call changes
nothing but the log. -/
theorem stopCall_idempotent_total (st : AppState) (f f2 : FailureProfile) :
    (stopCall st f).activeCall = false ∧
    (stopCall st f).session = none ∧
    (stopCall st f).sources = [] ∧
    (stopCall st f).nextStartTime = 0 ∧
    (stopCall st f).streamTracks = none ∧
    (stopCall st f).audioContexts = none ∧
    stopCall (stopCall st f) f2 =
      { stopCall st f with
        logs := addLog "Session safely terminated." (stopCall st f).logs } := by
  rw [stopCall_eq st f, stopCall_eq _ f2]
  refine ⟨rfl, rfl, rfl, rfl, rfl, rfl, rfl⟩

/-- C3: gapless sequential scheduling. Each buffer starts at
`max(nextStart, clock)`; the cursor then advances by the buffer's
duration; when the output clock is behind the cursor the next buffer
starts exactly where the previous one ended (and never earlier, so no
overlap); the scheduled source joins the active set and leaves it on
natural completion. -/
theorem gapless_playback_schedule (st : SchedState) (c1 d1 : ℚ) (s1 : Nat)
    (c2 d2 : ℚ) (s2 : Nat) :
    (schedule st c1 d1 s1).2 = max st.nextStart c1 ∧
    (schedule st c1 d1 s1).1.nextStart = (schedule st c1 d1 s1).2 + d1 ∧
    (c2 ≤ (schedule st c1 d1 s1).1.nextStart →
      (schedule (schedule st c1 d1 s1).1 c2 d2 s2).2 =
        (schedule st c1 d1 s1).2 + d1) ∧
    (schedule st c1 d1 s1).2 + d1 ≤ (schedule (schedule st c1 d1 s1).1 c2 d2 s2).2 ∧
    s1 ∈ (schedule st c1 d1 s1).1.active ∧
    (s1 ∉ st.active → (sourceEnded (schedule st c1 d1 s1).1 s1).active = st.active) := by
  refine ⟨rfl, rfl, fun h => ?_, ?_, ?_, fun h => ?_⟩
  · simp only [schedule]
    exact max_eq_left h
  · simp only [schedule]
    exact le_max_left _ _
  · simp [schedule]
  · simp only [schedule, sourceEnded]
    rw [List.erase_append_right _ h]
    simp

/-- Witness for the C3 theorem: two concrete buffers of durations 2 and 3
with the clock behind the cursor, scheduled back to back; the completed
source leaves the active set. -/
theorem gapless_playback_schedule_witness :
    ((0 : ℚ) ≤ (schedule { nextStart := 0, active := [] } 1 2 1).1.nextStart ∧
      (schedule (schedule { nextStart := 0, active := [] } 1 2 1).1 0 3 2).2 =
        (schedule { nextStart := 0, active := [] } 1 2 1).2 + 2) ∧
    ((1 : Nat) ∉ ({ nextStart := 0, active := [] } : SchedState).active ∧
      (sourceEnded (schedule { nextStart := 0, active := [] } 1 2 1).1 1).active =
        ({ nextStart := 0, active := [] } : SchedState).active) := by
  refine ⟨⟨by norm_num [schedule], ?_⟩, ⟨by simp, ?_⟩⟩
  · exact (gapless_playback_schedule { nextStart := 0, active := [] } 1 2 1 0 3 2).2.2.1
      (by norm_num [schedule])
  · exact (gapless_playback_schedule { nextStart := 0, active := [] } 1 2 1 0 3 2).2.2.2.2.2
      (by simp)

/-- C4: an interruption signal stops exactly the sources in the active
set, leaves the set empty, and resets the cursor to zero, so a buffer
arriving afterwards starts at the then-current (nonnegative) output-clock
time rather than at the stale cursor; and a guarded stop on an
already-finished source is a no-op, never an error. -/
theorem interruption_resets_playback (st : SchedState) (c d : ℚ) (sid : Nat)
    (s : SourceNode) :
    (interruptPlayback st).2 = st.active ∧
    (interruptPlayback st).1.active = [] ∧
    (interruptPlayback st).1.nextStart = 0 ∧
    (0 ≤ c → (schedule (interruptPlayback st).1 c d sid).2 = c) ∧
    (s.finished = true → safeStop s = s) := by
  refine ⟨rfl, rfl, rfl, fun hc => ?_, fun hs => ?_⟩
  · simp only [interruptPlayback, schedule]
    exact max_eq_right hc
  · simp [safeStop, rawStop, hs]

/-- Witness for the C4 theorem: interrupting a state with two scheduled
buffers and a nonzero cursor, then scheduling at clock time 7; stopping a
finished source changes nothing. -/
theorem interruption_resets_playback_witness :
    ((0 : ℚ) ≤ 7 ∧
      (schedule (interruptPlayback { nextStart := 5, active := [1, 2] }).1 7 2 3).2 = 7) ∧
    (({ started := true, finished := true, stopped := false } : SourceNode).finished = true ∧
      safeStop { started := true, finished := true, stopped := false } =
        { started := true, finished := true, stopped := false }) := by
  refine ⟨⟨by norm_num, ?_⟩, ⟨rfl, ?_⟩⟩
  · exact (interruption_resets_playback { nextStart := 5, active := [1, 2] } 7 2 3
      { started := true, finished := true, stopped := false }).2.2.2.1 (by norm_num)
  · exact (interruption_resets_playback { nextStart := 5, active := [1, 2] } 7 2 3
      { started := true, finished := true, stopped := false }).2.2.2.2 rfl

/-- Helper: folding the assembler from a transcript ending in `cur`
extends exactly the current run description. -/
lemma foldl_addFragment_run (fs : List Fragment) :
    ∀ (prev : List TranscriptionItem) (cur : TranscriptionItem),
      List.foldl addFragment (prev ++ [cur]) fs = prev ++ mergeRunsGo cur fs := by
  induction fs with
  | nil => intro prev cur; simp [mergeRunsGo]
  | cons f fs ih =>
    intro prev cur
    have hlast : (prev ++ [cur]).getLast? = some cur := by
      simp [List.getLast?_concat]
    by_cases h : cur.sender = f.sender
    · have hstep : addFragment (prev ++ [cur]) f =
          prev ++ [{ cur with text := cur.text ++ f.text }] := by
        simp [addFragment, hlast, h, List.dropLast_concat]
      rw [List.foldl_cons, hstep, ih prev _]
      rw [show mergeRunsGo cur (f :: fs) =
          mergeRunsGo { cur with text := cur.text ++ f.text } fs from by
        rw [mergeRunsGo, if_pos h]]
    · have hstep : addFragment (prev ++ [cur]) f = (prev ++ [cur]) ++ [fragItem f] := by
        simp [addFragment, hlast, h, fragItem]
      rw [List.foldl_cons, hstep, ih (prev ++ [cur]) (fragItem f)]
      rw [show mergeRunsGo cur (f :: fs) = cur :: mergeRunsGo (fragItem f) fs from by
        rw [mergeRunsGo, if_neg h]; rfl]
      simp

/-- Helper: the assembler equals the run-merging description on every
fragment stream. -/
lemma assemble_eq_mergeRuns (frags : List Fragment) :
    assemble frags = mergeRuns frags := by
  cases frags with
  | nil => rfl
  | cons f fs =>
    have h0 : addFragment [] f = [] ++ [fragItem f] := by
      simp [addFragment, fragItem]
    have h1 : assemble (f :: fs) = List.foldl addFragment ([] ++ [fragItem f]) fs := by
      rw [assemble, List.foldl_cons, h0]
    rw [h1, foldl_addFragment_run fs [] (fragItem f)]
    rw [show mergeRuns (f :: fs) = mergeRunsGo (fragItem f) fs from by
      rw [mergeRuns]; rfl]
    simp

/-- Helper: one assembler step never deletes entries and never touches
any entry other than the most recent one. -/
lemma addFragment_preserves_init (prev : List TranscriptionItem) (f : Fragment) :
    prev.length ≤ (addFragment prev f).length ∧
    (addFragment prev f).take (prev.length - 1) = prev.take (prev.length - 1) := by
  have htake1 : ∀ x : TranscriptionItem,
      (prev.dropLast ++ [x]).take (prev.length - 1) = prev.take (prev.length - 1) := by
    intro x
    rw [List.take_append_eq_append_take, List.length_dropLast]
    rw [Nat.sub_self, List.take_zero, List.append_nil, List.dropLast_eq_take]
    rw [List.take_take]
    simp
  have htake2 : ∀ x : TranscriptionItem,
      (prev ++ [x]).take (prev.length - 1) = prev.take (prev.length - 1) := by
    intro x
    rw [List.take_append_eq_append_take]
    rw [show prev.length - 1 - prev.length = 0 from by omega]
    rw [List.take_zero, List.append_nil]
  cases hp : prev.getLast? with
  | none =>
    have hnil : prev = [] := List.getLast?_eq_none_iff.mp hp
    subst hnil
    simp [addFragment]
  | some last =>
    by_cases h : last.sender = f.sender
    · have heq : addFragment prev f =
          prev.dropLast ++ [{ last with text := last.text ++ f.text }] := by
        simp [addFragment, hp, h]
      rw [heq]
      refine ⟨?_, htake1 _⟩
      rw [List.length_append, List.length_dropLast, List.length_cons, List.length_nil]
      omega
    · have heq : addFragment prev f = prev ++ [fragItem f] := by
        simp [addFragment, hp, h, fragItem]
      rw [heq]
      refine ⟨?_, htake2 _⟩
      rw [List.length_append]
      omega

/-- C2: the transcription assembler, fed fragments in arrival order,
produces exactly the run-merged transcript: one entry per maximal run of
consecutive same-speaker fragments, in arrival order, whose text is the
ordered concatenation of the run's fragments (`mergeRuns` is the
spec-side description); moreover a single step appends to or after the
most recent entry only — no earlier entry is mutated, deleted or
reordered, as witnessed by the unchanged front of the sequence. -/
theorem transcript_run_merging (frags : List Fragment)
    (prev : List TranscriptionItem) (f : Fragment) :
    assemble frags = mergeRuns frags ∧
    prev.length ≤ (addFragment prev f).length ∧
    (addFragment prev f).take (prev.length - 1) = prev.take (prev.length - 1) := by
  exact ⟨assemble_eq_mergeRuns frags,
    (addFragment_preserves_init prev f).1,
    (addFragment_preserves_init prev f).2⟩

/-- Helper: `Nat.digitChar` of a value below ten is a decimal digit
character. -/
lemma digitChar_isDigit (d : Nat) (h : d < 10) : (Nat.digitChar d).isDigit = true := by
  interval_cases d <;> decide

/-- Helper: with enough fuel, the length of the digit list produced by
the core decimal printer is the number of decimal digits. -/
lemma toDigitsCore_length_eq (n : Nat) :
    ∀ f : Nat, n < f → (Nat.toDigitsCore 10 f n []).length = Nat.log 10 n + 1 := by
  induction' n using Nat.strong_induction_on with n ih
  intro f hf
  cases f with
  | zero => omega
  | succ f =>
    simp only [Nat.toDigitsCore]
    by_cases h : n / 10 = 0
    · rw [if_pos h]
      have hn : n < 10 := by omega
      simp [Nat.log_eq_zero_iff.mpr (Or.inl hn)]
    · rw [if_neg h]
      have h10 : 10 ≤ n := by omega
      have hrec := Nat.toDigitsCore_lens_eq 10 f (n / 10) (Nat.digitChar (n % 10)) []
      rw [hrec, ih (n / 10) (by omega) f (by omega)]
      have hdiv : Nat.log 10 (n / 10) = Nat.log 10 n - 1 := Nat.log_div_base 10 n
      have hpos : 0 < Nat.log 10 n := Nat.log_pos (by norm_num) h10
      omega

/-- Helper: with enough fuel, every character produced by the core
decimal printer over a digit-only accumulator is a decimal digit. -/
lemma toDigitsCore_digits (n : Nat) :
    ∀ (f : Nat) (l : List Char), n < f → (∀ c ∈ l, c.isDigit = true) →
      ∀ c ∈ Nat.toDigitsCore 10 f n l, c.isDigit = true := by
  induction' n using Nat.strong_induction_on with n ih
  intro f l hf hl
  cases f with
  | zero => omega
  | succ f =>
    simp only [Nat.toDigitsCore]
    by_cases h : n / 10 = 0
    · rw [if_pos h]
      intro c hc
      rcases List.mem_cons.mp hc with hc | hc
      · subst hc
        exact digitChar_isDigit _ (Nat.mod_lt _ (by norm_num))
      · exact hl c hc
    · rw [if_neg h]
      refine ih (n / 10) (by omega) f _ (by omega) ?_
      intro c hc
      rcases List.mem_cons.mp hc with hc | hc
      · subst hc
        exact digitChar_isDigit _ (Nat.mod_lt _ (by norm_num))
      · exact hl c hc

/-- Helper: string length of a packed character list. -/
lemma length_asString (l : List Char) : (List.asString l).length = l.length := rfl

/-- Helper: the characters of a packed character list. -/
lemma data_asString (l : List Char) : (List.asString l).data = l := rfl

/-- Helper: the decimal representation of a number between 100000 and
999999 is exactly six digit characters. -/
lemma repr_length_six (n : Nat) (h1 : 100000 ≤ n) (h2 : n < 1000000) :
    (Nat.repr n).length = 6 ∧ ∀ c ∈ (Nat.repr n).data, c.isDigit = true := by
  have hlog : Nat.log 10 n = 5 := by
    apply Nat.log_eq_of_pow_le_of_lt_pow <;> norm_num <;> omega
  have hrepr : Nat.repr n = (Nat.toDigitsCore 10 (n + 1) n []).asString := rfl
  constructor
  · rw [hrepr, length_asString, toDigitsCore_length_eq n (n + 1) (Nat.lt_succ_self n), hlog]
  · rw [hrepr, data_asString]
    exact toDigitsCore_digits n (n + 1) [] (Nat.lt_succ_self n) (by simp)

/-- C1: a `register_complaint` invocation with any subset of arguments
present never fails under a working store: the new record (status
`Registered`, every absent field replaced by its fixed default —
`Uncategorized`, the empty string, `N/A`, `N/A`, `Detected`) is prepended
to the record sequence, the full updated sequence is persisted, exactly
one function-result correlated by the invocation id is emitted echoing
the generated reference id, and that id is `VMC-` followed by exactly six
random decimal digits. -/
theorem register_complaint_never_fails (st : DispatchState) (fc : FunctionCall)
    (rand : Nat) (ts : String) (now : Nat)
    (hname : fc.name = "register_complaint") :
    ((processCall st fc rand ts now true).complaints =
        buildComplaint fc.args rand ts :: st.complaints) ∧
    ((processCall st fc rand ts now true).persisted =
        buildComplaint fc.args rand ts :: st.complaints) ∧
    ((processCall st fc rand ts now true).responses =
        st.responses ++ [⟨fc.id, fc.name,
          "Success. Reference ID provided to user is " ++
            (buildComplaint fc.args rand ts).id⟩]) ∧
    ((processCall st fc rand ts now true).uncaughtError = st.uncaughtError) ∧
    ((buildComplaint fc.args rand ts).status = Status.Registered) ∧
    (fc.args.complaintType = none →
      (buildComplaint fc.args rand ts).complaintType = "Uncategorized") ∧
    (fc.args.description = none →
      (buildComplaint fc.args rand ts).description = "") ∧
    (fc.args.wardNumber = none →
      (buildComplaint fc.args rand ts).wardNumber = "N/A") ∧
    (fc.args.zone = none →
      (buildComplaint fc.args rand ts).zone = "N/A") ∧
    (fc.args.language = none →
      (buildComplaint fc.args rand ts).language = "Detected") ∧
    ((buildComplaint fc.args rand ts).id = "VMC-" ++ Nat.repr (callIdNum rand)) ∧
    (100000 ≤ callIdNum rand ∧ callIdNum rand < 1000000) ∧
    ((Nat.repr (callIdNum rand)).length = 6 ∧
      ∀ c ∈ (Nat.repr (callIdNum rand)).data, c.isDigit = true) := by
  have hb : 100000 ≤ callIdNum rand ∧ callIdNum rand < 1000000 := by
    unfold callIdNum
    omega
  refine ⟨?_, ?_, ?_, ?_, rfl, ?_, ?_, ?_, ?_, ?_, rfl, hb,
    repr_length_six _ hb.1 hb.2⟩
  · simp [processCall, hname, complaintsUpdater, saveDb]
  · simp [processCall, hname, complaintsUpdater, saveDb]
  · simp [processCall, hname]
  · simp [processCall, hname, complaintsUpdater, saveDb]
  · intro h
    simp [buildComplaint, jsOrString, h]
  · intro h
    simp [buildComplaint, jsOrString, h]
  · intro h
    simp [buildComplaint, jsOrString, h]
  · intro h
    simp [buildComplaint, jsOrString, h]
  · intro h
    simp [buildComplaint, jsOrString, h]

/-- Witness for the C1 theorem: a fully-empty argument bag at a concrete
random draw still produces a stored record and a six-digit reference
id. -/
theorem register_complaint_never_fails_witness :
    ((processCall initDispatch
        { id := "fc-1w", name := "register_complaint", args := emptyArgs }
        424242 "d" 0 true).complaints =
      buildComplaint emptyArgs 424242 "d" :: initDispatch.complaints) ∧
    (Nat.repr (callIdNum 424242)).length = 6 :=
  ⟨(register_complaint_never_fails initDispatch
      { id := "fc-1w", name := "register_complaint", args := emptyArgs }
      424242 "d" 0 rfl).1,
   (register_complaint_never_fails initDispatch
      { id := "fc-1w", name := "register_complaint", args := emptyArgs }
      424242 "d" 0 rfl).2.2.2.2.2.2.2.2.2.2.2.2.1⟩
